import Mathlib

/-!
# sdorfehs, `xrandr.c`: RandR screen tracking

A shallow embedding of `src/xrandr.c` and proofs about it.

Conventions of the embedding

* X resource ids (`RROutput`, `RRCrtc`) are 29-bit values, so the conversions between
  `unsigned long` and `int` made by the C code keep their value; they are `Nat` here.
* Pixel quantities (`x`, `y`, `width`, `height`) travel over the wire as 16-bit values,
  so the `unsigned int` to `int` assignments keep their value; they are `Int` here.
* C truth values kept in `int` variables (`rp_have_xrandr`, `xrandr.primary`) stay `Int`.
* The display server is a snapshot record `Server`: one field per Xrandr query the code
  makes, `none` standing for a query that fails (a `NULL` result or a zero status).
* The tracked list `rp_screens` is a `List rp_screen`; a `rp_screen *` into the list is
  the position of the record in the list.
* Calls into collaborators whose effect lies outside the fields used by `xrandr.c`
  are recorded, in order, in `State.calls`.
-/

namespace Xrandr

/-! ## Constants -/

/-- The major version, `#define XRANDR_MAJOR 1`. -/
def XRANDR_MAJOR : Int := 1

/-- The minimum minor version, `#define XRANDR_MINOR 3`. -/
def XRANDR_MINOR : Int := 3

/-- From `X11/extensions/randr.h`: the event code `RRNotify`. -/
def RRNotify : Int := 1

/-- From `X11/extensions/randr.h`: subtype `RRNotify_CrtcChange`. -/
def RRNotify_CrtcChange : Int := 0

/-- From `X11/extensions/randr.h`: subtype `RRNotify_OutputChange`. -/
def RRNotify_OutputChange : Int := 1

/-- From `X11/extensions/randr.h`: subtype `RRNotify_OutputProperty`. -/
def RRNotify_OutputProperty : Int := 2

/-- From `X11/extensions/randr.h`: `RRCrtcChangeNotifyMask` is `1L << 1`. -/
def RRCrtcChangeNotifyMask : Nat := 2

/-- From `X11/extensions/randr.h`: `RROutputChangeNotifyMask` is `1L << 2`. -/
def RROutputChangeNotifyMask : Nat := 4

/-- From `X11/extensions/randr.h`: rotation `RR_Rotate_0`. -/
def RR_Rotate_0 : Nat := 1

/-- From `X11/extensions/randr.h`: rotation `RR_Rotate_90`. -/
def RR_Rotate_90 : Nat := 2

/-- From `X11/extensions/randr.h`: rotation `RR_Rotate_180`. -/
def RR_Rotate_180 : Nat := 4

/-- From `X11/extensions/randr.h`: rotation `RR_Rotate_270`. -/
def RR_Rotate_270 : Nat := 8

/-! ## Data model -/

/-- The hardware binding record `screen->xrandr` (`struct rp_xrandr` of `sdorfehs.h`):
the fields `xrandr.c` reads and writes. `name` is a `char *` that may be `NULL`. -/
structure rp_xrandr where
  output : Nat
  crtc : Nat
  primary : Int
  name : Option String
deriving DecidableEq

/-- The fields of `rp_screen` that `xrandr.c` reads and writes. -/
structure rp_screen where
  xrandr : rp_xrandr
  left : Int
  top : Int
  width : Int
  height : Int
deriving DecidableEq

/-- The part of `XRROutputInfo` the code reads: `outinfo->crtc` and `outinfo->name`. -/
structure XRROutputInfo where
  crtc : Nat
  name : String
deriving DecidableEq

/-- The part of `XRRCrtcInfo` the code reads. -/
structure XRRCrtcInfo where
  x : Int
  y : Int
  width : Int
  height : Int
deriving DecidableEq

/-- A snapshot of the display server: the answer to each query `xrandr.c` makes.
`XRRQueryExtension` gives the event base and error base when the extension is present;
`XRRQueryVersion` gives `(major, minor)` when its status is non-zero. -/
structure Server where
  XRRQueryExtension : Option (Int × Int)
  XRRQueryVersion : Option (Int × Int)
  XRRGetOutputInfo : Nat → Option XRROutputInfo
  XRRGetCrtcInfo : Nat → Option XRRCrtcInfo
  XRRGetOutputPrimary : Nat

/-- The payload of `XRROutputChangeNotifyEvent` the handler reads. -/
structure XRROutputChangeNotifyEvent where
  output : Nat
deriving DecidableEq

/-- The payload of `XRRCrtcChangeNotifyEvent` the handler reads. -/
structure XRRCrtcChangeNotifyEvent where
  crtc : Nat
  rotation : Nat
  x : Int
  y : Int
  width : Int
  height : Int
deriving DecidableEq

/-- An `XEvent` as `xrandr_notify` looks at it: the type tag, the subtype of its
`XRRNotifyEvent` view, and its two payload views (the C code casts the same memory to
`XRROutputChangeNotifyEvent *` or `XRRCrtcChangeNotifyEvent *` according to the subtype). -/
structure XEvent where
  type : Int
  subtype : Int
  o_event : XRROutputChangeNotifyEvent
  c_event : XRRCrtcChangeNotifyEvent
deriving DecidableEq

/-- A call made by `xrandr.c` into a collaborator. A screen argument is the position of
the record in `rp_screens` at the time of the call. -/
inductive Call where
  | XRRSelectInput (mask : Nat)
  | warnx (major minor : Int)
  | hide_bar (cur : Nat)
  | mark_edge_frames
  | screen_add (rr_output : Nat)
  | screen_sort
  | screen_del (screen : Nat)
  | screen_update_workarea (cur : Nat)
  | screen_update_frames (cur : Nat)
  | redraw_sticky_bar_text
  | screen_update (screen : Nat) (left top width height : Int)
deriving DecidableEq

/-- The globals the module works on: the list `rp_screens`, the flag `rp_have_xrandr`,
the static `xrandr_evbase`, and the record of collaborator calls made so far. -/
structure State where
  rp_screens : List rp_screen
  rp_have_xrandr : Int
  xrandr_evbase : Int
  calls : List Call
deriving DecidableEq

/-- Modelled from the spec: the screen-list manager (`screen.c`, not in `xrandr.c`) owns
the insertion and sort order of the tracked list (spec §3: "insertion/sort order is owned
by the external screen-list manager"). `fresh` is the record `screen_add` allocates before
it is populated, `link` puts a record into the list, `sort` is the order `screen_sort`
establishes. -/
structure ScreenManager where
  fresh : rp_screen
  link : rp_screen → List rp_screen → List rp_screen
  sort : List rp_screen → List rp_screen

/-- The interface contract of the manager's list policies: linking a record adds that
record and nothing else, sorting only reorders. -/
def ScreenManager.Lawful (m : ScreenManager) : Prop :=
  (∀ s l, (m.link s l).Perm (s :: l)) ∧ (∀ l, (m.sort l).Perm l)

/-! ## The functions of `xrandr.c` -/

/-- The function `init_xrandr` (lines 38-58). -/
def init_xrandr (srv : Server) (st : State) : State :=
  match srv.XRRQueryExtension with
  | none => st
  | some (evbase, _) =>
    let st := { st with xrandr_evbase := evbase }
    match srv.XRRQueryVersion with
    | none => st
    | some (major, minor) =>
      if major ≠ XRANDR_MAJOR ∨ (major = XRANDR_MAJOR ∧ minor < XRANDR_MINOR) then
        { st with calls := st.calls ++ [Call.warnx major minor] }
      else
        { st with
          calls := st.calls ++
            [Call.XRRSelectInput (RRCrtcChangeNotifyMask ||| RROutputChangeNotifyMask)]
          rp_have_xrandr := 1 }

/-- The loop `list_for_each_entry (cur, &rp_screens, node) if (p cur) return cur;`
followed by `return NULL`: the position of the first record that satisfies `p`. -/
def list_first (p : rp_screen → Bool) : List rp_screen → Option Nat
  | [] => none
  | cur :: rest => if p cur then some 0 else (list_first p rest).map (· + 1)

/-- The function `xrandr_screen_output` (lines 88-99). -/
def xrandr_screen_output (rp_screens : List rp_screen) (rr_output : Nat) : Option Nat :=
  list_first (fun cur => cur.xrandr.output == rr_output) rp_screens

/-- The function `xrandr_screen_crtc` (lines 101-112). -/
def xrandr_screen_crtc (rp_screens : List rp_screen) (rr_crtc : Nat) : Option Nat :=
  list_first (fun cur => cur.xrandr.crtc == rr_crtc) rp_screens

/-- The function `xrandr_is_primary` (lines 114-121). -/
def xrandr_is_primary (rp_have_xrandr : Int) (screen : rp_screen) : Int :=
  if rp_have_xrandr ≠ 0 then screen.xrandr.primary else 0

/-- The function `xrandr_fill_screen` (lines 123-163). The acquired server resources are
released on every path and leave no trace in the state. -/
def xrandr_fill_screen (srv : Server) (rr_output : Nat) (screen : rp_screen) : rp_screen :=
  match srv.XRRGetOutputInfo rr_output with
  | none => screen
  | some outinfo =>
    if outinfo.crtc = 0 then screen
    else
      match srv.XRRGetCrtcInfo outinfo.crtc with
      | none => screen
      | some crtinfo =>
        { xrandr :=
            { primary := if rr_output = srv.XRRGetOutputPrimary then 1 else 0
              name := some outinfo.name
              output := rr_output
              crtc := outinfo.crtc }
          left := crtinfo.x
          top := crtinfo.y
          width := crtinfo.width
          height := crtinfo.height }

/-- The C condition `outinfo && outinfo->crtc` of `xrandr_output_change`. -/
def has_crtc (outinfo : Option XRROutputInfo) : Bool :=
  match outinfo with
  | none => false
  | some info => info.crtc != 0

/-- Modelled from the spec: `screen_add` of `screen.c` (not in `xrandr.c`). Spec §3: a
screen is "created by the external screen-list manager in response to this module's add
decision; its hardware-binding fields are populated immediately by the Geometry Fetcher".
The new record is the manager's fresh record run through `xrandr_fill_screen`. -/
def screen_add (m : ScreenManager) (srv : Server) (rr_output : Nat) (st : State) : State :=
  { st with
    rp_screens := m.link (xrandr_fill_screen srv rr_output m.fresh) st.rp_screens
    calls := st.calls ++ [Call.screen_add rr_output] }

/-- Modelled from the spec: `screen_sort` of `screen.c` (not in `xrandr.c`); spec §4.4:
"re-sort the tracked list (external operation; sort policy out of scope here)". -/
def screen_sort (m : ScreenManager) (st : State) : State :=
  { st with rp_screens := m.sort st.rp_screens, calls := st.calls ++ [Call.screen_sort] }

/-- Modelled from the spec: `screen_del` of `screen.c` (not in `xrandr.c`); spec §4.4:
"destroy that logical screen". The record at the given position leaves the list. -/
def screen_del (screen : Nat) (st : State) : State :=
  { st with
    rp_screens := st.rp_screens.eraseIdx screen
    calls := st.calls ++ [Call.screen_del screen] }

/-- Modelled from the spec: `screen_update` of `screen.c` (not in `xrandr.c`); spec §4.5:
"apply a direct geometry update". The four geometry fields of the record at the given
position take the given values. -/
def screen_update (screen : Nat) (left top width height : Int) (st : State) : State :=
  { st with
    rp_screens := st.rp_screens.modify
      (fun s => { s with left := left, top := top, width := width, height := height }) screen
    calls := st.calls ++ [Call.screen_update screen left top width height] }

/-- The loop of lines 204-208 on the list: `xrandr_fill_screen (cur->xrandr.output, cur)`
for every tracked screen. -/
def refill (srv : Server) (rp_screens : List rp_screen) : List rp_screen :=
  rp_screens.map (fun cur => xrandr_fill_screen srv cur.xrandr.output cur)

/-- The function `xrandr_output_change` (lines 165-211). `hide_bar`, `mark_edge_frames`,
`screen_update_workarea`, `screen_update_frames` and `redraw_sticky_bar_text` work on the
bar, the frames and the workarea, outside the fields of this embedding, and are recorded
as calls. -/
def xrandr_output_change (m : ScreenManager) (srv : Server)
    (ev : XRROutputChangeNotifyEvent) (st : State) : State :=
  let outinfo := srv.XRRGetOutputInfo ev.output
  let screen := xrandr_screen_output st.rp_screens ev.output
  let st1 : State :=
    { st with
      calls := st.calls ++ (List.range st.rp_screens.length).map Call.hide_bar
        ++ [Call.mark_edge_frames] }
  let st2 : State :=
    match screen with
    | none => if has_crtc outinfo then screen_sort m (screen_add m srv ev.output st1) else st1
    | some i => if !has_crtc outinfo then screen_del i st1 else st1
  { st2 with
    rp_screens := refill srv st2.rp_screens
    calls := st2.calls
      ++ (List.range st2.rp_screens.length).flatMap
          (fun i => [Call.screen_update_workarea i, Call.screen_update_frames i])
      ++ [Call.redraw_sticky_bar_text] }

/-- The function `xrandr_crtc_change` (lines 234-257). -/
def xrandr_crtc_change (ev : XRRCrtcChangeNotifyEvent) (st : State) : State :=
  if ev.crtc = 0 ∨ ev.width = 0 ∨ ev.height = 0 then st
  else
    match xrandr_screen_crtc st.rp_screens ev.crtc with
    | none => st
    | some screen =>
      if ev.rotation = RR_Rotate_90 ∨ ev.rotation = RR_Rotate_270 then
        screen_update screen ev.x ev.y ev.height ev.width st
      else
        screen_update screen ev.x ev.y ev.width ev.height st

/-- The function `xrandr_notify` (lines 259-291). -/
def xrandr_notify (m : ScreenManager) (srv : Server) (ev : XEvent) (st : State) : State :=
  if ev.type ≠ st.xrandr_evbase + RRNotify then st
  else if ev.subtype = RRNotify_OutputChange then xrandr_output_change m srv ev.o_event st
  else if ev.subtype = RRNotify_CrtcChange then xrandr_crtc_change ev.c_event st
  else st

/-! ## Example data -/

/-- A zero-filled record, as `xrandr_fill_screen` needs of a record it has not seen yet
(line 147 reads `screen->xrandr.name` before the first assignment). -/
def zero_screen : rp_screen :=
  { xrandr := { output := 0, crtc := 0, primary := 0, name := none }
    left := 0, top := 0, width := 0, height := 0 }

/-- A manager for the worked examples: zero-filled fresh record, insertion at the head,
order by `left`. -/
def head_manager : ScreenManager :=
  { fresh := zero_screen
    link := fun s l => s :: l
    sort := fun l => l.insertionSort (fun a b => a.left ≤ b.left) }

/-- A tracked screen with the given output, controller and geometry. -/
def mk_screen (output crtc : Nat) (primary : Int) (name : String)
    (left top width height : Int) : rp_screen :=
  { xrandr := { output := output, crtc := crtc, primary := primary, name := some name }
    left := left, top := top, width := width, height := height }

/-- A state with the given tracked list, the extension negotiated at event base 89, and
no call recorded. -/
def mk_state (rp_screens : List rp_screen) : State :=
  { rp_screens := rp_screens, rp_have_xrandr := 1, xrandr_evbase := 89, calls := [] }

/-- The scenario of spec §8: output 1 ("A") on controller 11 at (1024,0) 1280x1024;
output 2 ("B") newly bound to controller 12 with geometry (0,0,1024,768); output 1 is the
primary. -/
def srv_two : Server :=
  { XRRQueryExtension := some (89, 147)
    XRRQueryVersion := some (1, 5)
    XRRGetOutputInfo := fun o =>
      if o = 1 then some { crtc := 11, name := "A" }
      else if o = 2 then some { crtc := 12, name := "B" }
      else none
    XRRGetCrtcInfo := fun c =>
      if c = 11 then some { x := 1024, y := 0, width := 1280, height := 1024 }
      else if c = 12 then some { x := 0, y := 0, width := 1024, height := 768 }
      else none
    XRRGetOutputPrimary := 1 }

/-- The calls that change which records are in the tracked list or their order:
`screen_add`, `screen_sort` and `screen_del`. -/
def Call.structural : Call → Bool
  | Call.screen_add _ => true
  | Call.screen_sort => true
  | Call.screen_del _ => true
  | _ => false

/-- The controller-change event of spec §8: controller 11 reports 1920x1080 at the origin
with the given rotation. -/
def ev_rotated (rotation : Nat) : XRRCrtcChangeNotifyEvent :=
  { crtc := 11, rotation := rotation, x := 0, y := 0, width := 1920, height := 1080 }

/-- The output ids of the tracked screens, in list order. -/
def outputs (rp_screens : List rp_screen) : List Nat :=
  rp_screens.map (fun s => s.xrandr.output)

/-- The controller ids of the tracked screens, in list order. -/
def crtcs (rp_screens : List rp_screen) : List Nat :=
  rp_screens.map (fun s => s.xrandr.crtc)

/-- The condition under which `xrandr_fill_screen` reaches its assignments: neither the
test of line 134 (`!outinfo || !outinfo->crtc`) nor the test of line 138 (`!crtinfo`)
leaves the function early. -/
def fetchable (srv : Server) (rr_output : Nat) : Bool :=
  match srv.XRRGetOutputInfo rr_output with
  | none => false
  | some outinfo => outinfo.crtc != 0 && (srv.XRRGetCrtcInfo outinfo.crtc).isSome

/-- The tracked list mirrors the server: no output id occurs twice, and an output id is
tracked exactly when the server reports a bound controller for it. -/
def in_sync (srv : Server) (rp_screens : List rp_screen) : Prop :=
  (outputs rp_screens).Nodup ∧
    ∀ o, o ∈ outputs rp_screens ↔ has_crtc (srv.XRRGetOutputInfo o) = true

/-- A run of output-change events, each delivered against the server snapshot current at
its delivery: the snapshot and the state after each event. -/
def deliver (m : ScreenManager) :
    List (Server × XRROutputChangeNotifyEvent) → State → List (Server × State)
  | [], _ => []
  | (srv, ev) :: rest, st =>
    (srv, xrandr_output_change m srv ev st) ::
      deliver m rest (xrandr_output_change m srv ev st)

/-- A run in which every event reports the one change made since the previous snapshot:
the snapshot at delivery differs from the previous one, in which outputs have a bound
controller, at most at the event's output, and a controller bound to the event's output
answers the controller-info query. -/
def one_change_per_event (prev : Server) :
    List (Server × XRROutputChangeNotifyEvent) → Prop
  | [] => True
  | (srv, ev) :: rest =>
    (∀ o, o ≠ ev.output →
      has_crtc (srv.XRRGetOutputInfo o) = has_crtc (prev.XRRGetOutputInfo o)) ∧
    (has_crtc (srv.XRRGetOutputInfo ev.output) = true → fetchable srv ev.output = true) ∧
    one_change_per_event srv rest

/-- The tracked screen "A" of the examples: output 1 on controller 11, primary. -/
def screen_A : rp_screen := mk_screen 1 11 1 "A" 1024 0 1280 1024

/-- The tracked screen "B" of the examples: output 2 on controller 12. -/
def screen_B : rp_screen := mk_screen 2 12 0 "B" 0 0 1024 768

/-- The snapshot before `srv_two`: output 2 is known and has no controller yet. -/
def srv_one : Server :=
  { srv_two with
    XRRGetOutputInfo := fun o =>
      if o = 1 then some { crtc := 11, name := "A" }
      else if o = 2 then some { crtc := 0, name := "B" }
      else none }

/-- Both outputs have been switched off: each is known and has no controller. -/
def srv_off : Server :=
  { srv_two with
    XRRGetOutputInfo := fun o =>
      if o = 1 then some { crtc := 0, name := "A" }
      else if o = 2 then some { crtc := 0, name := "B" }
      else none }

/-- The snapshot `srv_two` with a controller-info query that fails for controller 12, the
controller bound to output 2. -/
def srv_broken : Server :=
  { srv_two with
    XRRGetCrtcInfo := fun c =>
      if c = 11 then some { x := 1024, y := 0, width := 1280, height := 1024 } else none }

/-- The snapshot `srv_two` after the primary designation has moved to output 2. -/
def srv_primary_B : Server :=
  { srv_two with XRRGetOutputPrimary := 2 }

/-- The server binds no controller to two outputs. -/
def distinct_crtcs (srv : Server) : Prop :=
  ∀ o₁ o₂ i₁ i₂, srv.XRRGetOutputInfo o₁ = some i₁ → srv.XRRGetOutputInfo o₂ = some i₂ →
    i₁.crtc ≠ 0 → i₁.crtc = i₂.crtc → o₁ = o₂

/-- Output 2 mirrors output 1: the server drives both outputs from controller 11. -/
def srv_clone : Server :=
  { srv_two with
    XRRGetOutputInfo := fun o =>
      if o = 1 then some { crtc := 11, name := "A" }
      else if o = 2 then some { crtc := 11, name := "B" }
      else none }

/-- An output-change notification for the given output, as `xrandr_notify` receives it
when the event base is 89. -/
def ev_output_change (output : Nat) : XEvent :=
  { type := 89 + RRNotify
    subtype := RRNotify_OutputChange
    o_event := { output := output }
    c_event := { crtc := 0, rotation := 0, x := 0, y := 0, width := 0, height := 0 } }

/-! ## Lemmas on the list scans -/

theorem list_first_eq_none (p : rp_screen → Bool) (l : List rp_screen) :
    list_first p l = none ↔ ∀ s ∈ l, p s = false := by
  induction l with
  | nil => simp [list_first]
  | cons cur rest ih =>
    by_cases hp : p cur = true
    · simp [list_first, hp]
    · simp only [Bool.not_eq_true] at hp
      simp [list_first, hp, ih]

theorem list_first_eq_some (p : rp_screen → Bool) (l : List rp_screen) (i : Nat)
    (h : list_first p l = some i) :
    ∃ s, l[i]? = some s ∧ p s = true ∧
      ∀ j, j < i → ∀ t, l[j]? = some t → p t = false := by
  induction l generalizing i with
  | nil => simp [list_first] at h
  | cons cur rest ih =>
    by_cases hp : p cur = true
    · simp only [list_first, hp, if_true, Option.some.injEq] at h
      subst h
      exact ⟨cur, by simp, hp, fun j hj => absurd hj (Nat.not_lt_zero j)⟩
    · simp only [Bool.not_eq_true] at hp
      simp only [list_first, hp, Bool.false_eq_true, if_false, Option.map_eq_some'] at h
      obtain ⟨k, hk, rfl⟩ := h
      obtain ⟨s, hs, hps, hlt⟩ := ih k hk
      refine ⟨s, by simpa using hs, hps, ?_⟩
      intro j hj t ht
      cases j with
      | zero =>
        simp only [List.getElem?_cons_zero, Option.some.injEq] at ht
        subst ht
        exact hp
      | succ j =>
        simp only [List.getElem?_cons_succ] at ht
        exact hlt j (by omega) t ht

theorem list_first_isSome (p : rp_screen → Bool) (l : List rp_screen) :
    (list_first p l).isSome = true ↔ ∃ s ∈ l, p s = true := by
  rw [← Option.ne_none_iff_isSome, Ne, list_first_eq_none]
  simp

/-! ## The capability negotiator, the geometry fetcher, the controller-change handler -/

/-- C9: when the output-info query fails or the output has no bound controller,
`xrandr_fill_screen` returns the screen record as it was, every field unchanged. -/
theorem xrandr_fill_screen_noop (srv : Server) (rr_output : Nat) (screen : rp_screen)
    (h : srv.XRRGetOutputInfo rr_output = none ∨
      ∃ outinfo, srv.XRRGetOutputInfo rr_output = some outinfo ∧ outinfo.crtc = 0) :
    xrandr_fill_screen srv rr_output screen = screen := by
  rcases h with h | ⟨outinfo, h, hc⟩
  · simp [xrandr_fill_screen, h]
  · simp [xrandr_fill_screen, h, hc]

/-- Witness for C9: output 3 is unknown to `srv_two`, and the record given to
`xrandr_fill_screen` comes back unchanged. -/
theorem xrandr_fill_screen_noop_witness :
    xrandr_fill_screen srv_two 3 (mk_screen 3 13 1 "C" 5 6 640 480)
      = mk_screen 3 13 1 "C" 5 6 640 480 :=
  xrandr_fill_screen_noop srv_two 3 (mk_screen 3 13 1 "C" 5 6 640 480) (Or.inl rfl)

/-- C6: starting with `rp_have_xrandr` false, `init_xrandr` sets the flag and calls
`XRRSelectInput` exactly when the extension is present, the version query succeeds, the
major version is 1 and the minor version is at least 3; otherwise the flag stays false and
`XRRSelectInput` is not called. -/
theorem init_xrandr_gating (srv : Server) (st : State) (h0 : st.rp_have_xrandr = 0) :
    (((init_xrandr srv st).rp_have_xrandr ≠ 0 ∧
        Call.XRRSelectInput (RRCrtcChangeNotifyMask ||| RROutputChangeNotifyMask) ∈
          (init_xrandr srv st).calls.drop st.calls.length) ↔
      ∃ evbase errbase minor, srv.XRRQueryExtension = some (evbase, errbase) ∧
        srv.XRRQueryVersion = some (1, minor) ∧ 3 ≤ minor) ∧
    ((¬ ∃ evbase errbase minor, srv.XRRQueryExtension = some (evbase, errbase) ∧
        srv.XRRQueryVersion = some (1, minor) ∧ 3 ≤ minor) →
      (init_xrandr srv st).rp_have_xrandr = 0 ∧
        ∀ mask, Call.XRRSelectInput mask ∉ (init_xrandr srv st).calls.drop st.calls.length) := by
  unfold init_xrandr
  cases hq : srv.XRRQueryExtension with
  | none => simp [h0]
  | some eb =>
    obtain ⟨evbase, errbase⟩ := eb
    cases hv : srv.XRRQueryVersion with
    | none => simp [h0]
    | some v =>
      obtain ⟨major, minor⟩ := v
      by_cases hmaj : major = 1
      · subst hmaj
        by_cases hmin : minor < 3
        · have : ¬ (3 ≤ minor) := by omega
          simp [XRANDR_MAJOR, XRANDR_MINOR, hmin, h0, this]
        · have : 3 ≤ minor := by omega
          simp [XRANDR_MAJOR, XRANDR_MINOR, hmin, this]
      · have h1 : ¬ (1 = major) := fun h => hmaj h.symm
        simp [XRANDR_MAJOR, XRANDR_MINOR, hmaj, h0, h1]

/-- Witness for C6: a server at version 1.2 leaves the flag false and makes no
subscription. -/
theorem init_xrandr_gating_witness :
    (init_xrandr { srv_two with XRRQueryVersion := some (1, 2) }
        { mk_state [] with rp_have_xrandr := 0 }).rp_have_xrandr = 0 ∧
      ∀ mask, Call.XRRSelectInput mask ∉
        (init_xrandr { srv_two with XRRQueryVersion := some (1, 2) }
          { mk_state [] with rp_have_xrandr := 0 }).calls.drop
            ({ mk_state [] with rp_have_xrandr := 0 } : State).calls.length :=
  (init_xrandr_gating { srv_two with XRRQueryVersion := some (1, 2) }
    { mk_state [] with rp_have_xrandr := 0 } rfl).2 (by
      rintro ⟨evbase, errbase, minor, -, hv, hm⟩
      simp only [Option.some.injEq, Prod.mk.injEq] at hv
      omega)

/-- C5: a controller-change event with a zero controller id, a zero width, a zero height,
or a controller id bound to no tracked screen leaves the whole state as it was: the
tracked list, every field of every screen, and the record of calls (so `screen_update` is
not invoked). -/
theorem xrandr_crtc_change_guard (ev : XRRCrtcChangeNotifyEvent) (st : State)
    (h : ev.crtc = 0 ∨ ev.width = 0 ∨ ev.height = 0 ∨
      ∀ s ∈ st.rp_screens, s.xrandr.crtc ≠ ev.crtc) :
    xrandr_crtc_change ev st = st := by
  unfold xrandr_crtc_change
  by_cases hg : ev.crtc = 0 ∨ ev.width = 0 ∨ ev.height = 0
  · simp [hg]
  · have hn : xrandr_screen_crtc st.rp_screens ev.crtc = none := by
      rw [xrandr_screen_crtc, list_first_eq_none]
      intro s hs
      rcases h with h | h | h | h
      · exact absurd (Or.inl h) hg
      · exact absurd (Or.inr (Or.inl h)) hg
      · exact absurd (Or.inr (Or.inr h)) hg
      · simpa using h s hs
    simp [hg, hn]

/-- Witness for C5: an event with width 0 for the bound controller 11 changes nothing. -/
theorem xrandr_crtc_change_guard_witness :
    xrandr_crtc_change
        { crtc := 11, rotation := RR_Rotate_0, x := 0, y := 0, width := 0, height := 1080 }
        (mk_state [mk_screen 1 11 1 "A" 1024 0 1280 1024])
      = mk_state [mk_screen 1 11 1 "A" 1024 0 1280 1024] :=
  xrandr_crtc_change_guard _ _ (Or.inr (Or.inl rfl))

/-- C4: for a controller-change event with non-zero controller id, width and height whose
controller is bound to a tracked screen, `screen_update` is called once, on the first
tracked screen with that controller id, with `(x, y, height, width)` when the rotation is
`RR_Rotate_90` or `RR_Rotate_270` and with `(x, y, width, height)` for every other
rotation value; that screen then stores these four values, keeps its hardware binding, and
every other tracked screen is as it was. -/
theorem xrandr_crtc_change_rotation (ev : XRRCrtcChangeNotifyEvent) (st : State)
    (hc : ev.crtc ≠ 0) (hw : ev.width ≠ 0) (hh : ev.height ≠ 0)
    (hb : ∃ s ∈ st.rp_screens, s.xrandr.crtc = ev.crtc) :
    ∃ i s, xrandr_screen_crtc st.rp_screens ev.crtc = some i ∧
      st.rp_screens[i]? = some s ∧ s.xrandr.crtc = ev.crtc ∧
      (xrandr_crtc_change ev st).calls = st.calls ++
        [Call.screen_update i ev.x ev.y
          (if ev.rotation = RR_Rotate_90 ∨ ev.rotation = RR_Rotate_270
            then ev.height else ev.width)
          (if ev.rotation = RR_Rotate_90 ∨ ev.rotation = RR_Rotate_270
            then ev.width else ev.height)] ∧
      (xrandr_crtc_change ev st).rp_screens[i]? = some
        { xrandr := s.xrandr, left := ev.x, top := ev.y
          width := if ev.rotation = RR_Rotate_90 ∨ ev.rotation = RR_Rotate_270
            then ev.height else ev.width
          height := if ev.rotation = RR_Rotate_90 ∨ ev.rotation = RR_Rotate_270
            then ev.width else ev.height } ∧
      ∀ j, j ≠ i → (xrandr_crtc_change ev st).rp_screens[j]? = st.rp_screens[j]? := by
  have hsome : (xrandr_screen_crtc st.rp_screens ev.crtc).isSome = true := by
    rw [xrandr_screen_crtc, list_first_isSome]
    obtain ⟨s, hs, hsc⟩ := hb
    exact ⟨s, hs, by simpa using hsc⟩
  obtain ⟨i, hi⟩ := Option.isSome_iff_exists.mp hsome
  obtain ⟨s, hs, hps, -⟩ := list_first_eq_some _ _ _ hi
  have hilt : i < st.rp_screens.length := (List.getElem?_eq_some_iff.mp hs).1
  have hget : st.rp_screens[i] = s := (List.getElem?_eq_some_iff.mp hs).2
  refine ⟨i, s, hi, hs, by simpa using hps, ?_⟩
  have hg : ¬ (ev.crtc = 0 ∨ ev.width = 0 ∨ ev.height = 0) := by
    rintro (h | h | h)
    · exact hc h
    · exact hw h
    · exact hh h
  unfold xrandr_crtc_change
  simp only [hg, if_false, hi]
  by_cases hr : ev.rotation = RR_Rotate_90 ∨ ev.rotation = RR_Rotate_270
  · simp only [hr, if_true, screen_update, true_and]
    refine ⟨?_, ?_⟩
    · simp [List.getElem?_modify, hs]
    · intro j hj
      simp [List.getElem?_modify, Ne.symm hj]
  · simp only [hr, if_false, screen_update, true_and]
    refine ⟨?_, ?_⟩
    · simp [List.getElem?_modify, hs]
    · intro j hj
      simp [List.getElem?_modify, Ne.symm hj]

/-- Witness for C4, the two cases of spec §8: with rotation 90° and a reported 1920x1080
the bound screen stores width 1080 and height 1920; with rotation 0° it stores width 1920
and height 1080. -/
theorem xrandr_crtc_change_rotation_witness :
    (∃ (i : Nat) (s : rp_screen),
      (mk_state [mk_screen 1 11 1 "A" 1024 0 1280 1024]).rp_screens[i]? = some s ∧
      (xrandr_crtc_change (ev_rotated RR_Rotate_90)
        (mk_state [mk_screen 1 11 1 "A" 1024 0 1280 1024])).rp_screens[i]? = some
          ({ xrandr := s.xrandr, left := 0, top := 0, width := 1080, height := 1920 } :
            rp_screen)) ∧
    (∃ (i : Nat) (s : rp_screen),
      (mk_state [mk_screen 1 11 1 "A" 1024 0 1280 1024]).rp_screens[i]? = some s ∧
      (xrandr_crtc_change (ev_rotated RR_Rotate_0)
        (mk_state [mk_screen 1 11 1 "A" 1024 0 1280 1024])).rp_screens[i]? = some
          ({ xrandr := s.xrandr, left := 0, top := 0, width := 1920, height := 1080 } :
            rp_screen)) := by
  constructor
  · obtain ⟨i, s, -, hs, -, -, hnew, -⟩ :=
      xrandr_crtc_change_rotation (ev_rotated RR_Rotate_90)
        (mk_state [mk_screen 1 11 1 "A" 1024 0 1280 1024])
        (by decide) (by decide) (by decide) ⟨_, List.mem_singleton.mpr rfl, rfl⟩
    exact ⟨i, s, hs, by simpa [ev_rotated, RR_Rotate_90] using hnew⟩
  · obtain ⟨i, s, -, hs, -, -, hnew, -⟩ :=
      xrandr_crtc_change_rotation (ev_rotated RR_Rotate_0)
        (mk_state [mk_screen 1 11 1 "A" 1024 0 1280 1024])
        (by decide) (by decide) (by decide) ⟨_, List.mem_singleton.mpr rfl, rfl⟩
    exact ⟨i, s, hs, by simpa [ev_rotated, RR_Rotate_0, RR_Rotate_90, RR_Rotate_270] using hnew⟩

/-! ## The output-change handler -/

theorem xrandr_fill_screen_output (srv : Server) (s : rp_screen) :
    (xrandr_fill_screen srv s.xrandr.output s).xrandr.output = s.xrandr.output := by
  unfold xrandr_fill_screen
  split
  · rfl
  · split
    · rfl
    · split <;> rfl

theorem refill_outputs (srv : Server) (l : List rp_screen) :
    (refill srv l).map (fun s => s.xrandr.output) = l.map (fun s => s.xrandr.output) := by
  simp [refill, List.map_map, Function.comp_def, xrandr_fill_screen_output]

theorem filter_structural_hide_bar (l : List Nat) :
    (l.map Call.hide_bar).filter Call.structural = [] := by
  induction l with
  | nil => rfl
  | cons a l ih => simp [Call.structural, ih]

theorem filter_structural_update (l : List Nat) :
    (l.flatMap (fun i =>
      [Call.screen_update_workarea i, Call.screen_update_frames i])).filter
        Call.structural = [] := by
  induction l with
  | nil => rfl
  | cons a l ih => simp [Call.structural, List.flatMap_cons, ih]

theorem has_crtc_eq_true (outinfo : Option XRROutputInfo) :
    has_crtc outinfo = true ↔ ∃ info, outinfo = some info ∧ info.crtc ≠ 0 := by
  cases outinfo with
  | none => simp [has_crtc]
  | some info => simp [has_crtc]

theorem output_change_add (m : ScreenManager) (srv : Server)
    (ev : XRROutputChangeNotifyEvent) (st : State)
    (ht : xrandr_screen_output st.rp_screens ev.output = none)
    (ha : has_crtc (srv.XRRGetOutputInfo ev.output) = true) :
    (xrandr_output_change m srv ev st).rp_screens =
      refill srv (m.sort (m.link (xrandr_fill_screen srv ev.output m.fresh) st.rp_screens)) := by
  simp [xrandr_output_change, ht, ha, screen_sort, screen_add]

theorem output_change_del (m : ScreenManager) (srv : Server)
    (ev : XRROutputChangeNotifyEvent) (st : State) (i : Nat)
    (ht : xrandr_screen_output st.rp_screens ev.output = some i)
    (ha : has_crtc (srv.XRRGetOutputInfo ev.output) = false) :
    (xrandr_output_change m srv ev st).rp_screens = refill srv (st.rp_screens.eraseIdx i) := by
  simp [xrandr_output_change, ht, ha, screen_del]

theorem output_change_keep (m : ScreenManager) (srv : Server)
    (ev : XRROutputChangeNotifyEvent) (st : State)
    (h : (xrandr_screen_output st.rp_screens ev.output).isSome =
      has_crtc (srv.XRRGetOutputInfo ev.output)) :
    (xrandr_output_change m srv ev st).rp_screens = refill srv st.rp_screens := by
  cases ht : xrandr_screen_output st.rp_screens ev.output with
  | none =>
    rw [ht] at h
    simp [xrandr_output_change, ht, ← h]
  | some i =>
    rw [ht] at h
    simp [xrandr_output_change, ht, ← h]

theorem output_change_calls (m : ScreenManager) (srv : Server)
    (ev : XRROutputChangeNotifyEvent) (st : State) :
    ((xrandr_output_change m srv ev st).calls.drop st.calls.length).filter Call.structural =
      match xrandr_screen_output st.rp_screens ev.output with
      | none =>
        if has_crtc (srv.XRRGetOutputInfo ev.output) then
          [Call.screen_add ev.output, Call.screen_sort]
        else []
      | some i =>
        if has_crtc (srv.XRRGetOutputInfo ev.output) then [] else [Call.screen_del i] := by
  cases ht : xrandr_screen_output st.rp_screens ev.output with
  | none =>
    cases ha : has_crtc (srv.XRRGetOutputInfo ev.output) <;>
      simp [xrandr_output_change, ht, ha, screen_sort, screen_add, List.append_assoc,
        List.filter_append, filter_structural_hide_bar, filter_structural_update,
        Call.structural]
  | some i =>
    cases ha : has_crtc (srv.XRRGetOutputInfo ev.output) <;>
      simp [xrandr_output_change, ht, ha, screen_del, List.append_assoc,
        List.filter_append, filter_structural_hide_bar, filter_structural_update,
        Call.structural]

/-- C1: `xrandr_output_change` makes one structural decision. (1) When no tracked screen
has the event's output id and the server reports a bound controller for it, the structural
calls are `screen_add` for that output followed by `screen_sort`, and the list becomes the
old records plus one new record (in the manager's order), all re-fetched. (2) When a
tracked screen has that output id and the output-info query fails or reports no controller,
the only structural call is `screen_del` on the first tracked screen with that output id,
and the list is the old list without that record, re-fetched. (3) In the two remaining
cases no `screen_add`, `screen_sort` or `screen_del` is called, and the list holds the same
records in the same order, re-fetched, with the same output ids. -/
theorem xrandr_output_change_decision (m : ScreenManager) (hm : m.Lawful) (srv : Server)
    (ev : XRROutputChangeNotifyEvent) (st : State) :
    ((∀ s ∈ st.rp_screens, s.xrandr.output ≠ ev.output) →
      has_crtc (srv.XRRGetOutputInfo ev.output) = true →
        ((xrandr_output_change m srv ev st).calls.drop st.calls.length).filter
            Call.structural = [Call.screen_add ev.output, Call.screen_sort] ∧
        (xrandr_output_change m srv ev st).rp_screens.Perm
          (refill srv (xrandr_fill_screen srv ev.output m.fresh :: st.rp_screens)) ∧
        (xrandr_output_change m srv ev st).rp_screens.length = st.rp_screens.length + 1) ∧
    ((∃ s ∈ st.rp_screens, s.xrandr.output = ev.output) →
      has_crtc (srv.XRRGetOutputInfo ev.output) = false →
        ∃ i s, xrandr_screen_output st.rp_screens ev.output = some i ∧
          st.rp_screens[i]? = some s ∧ s.xrandr.output = ev.output ∧
          ((xrandr_output_change m srv ev st).calls.drop st.calls.length).filter
            Call.structural = [Call.screen_del i] ∧
          (xrandr_output_change m srv ev st).rp_screens =
            refill srv (st.rp_screens.eraseIdx i)) ∧
    (((∃ s ∈ st.rp_screens, s.xrandr.output = ev.output) ↔
        has_crtc (srv.XRRGetOutputInfo ev.output) = true) →
      ((xrandr_output_change m srv ev st).calls.drop st.calls.length).filter
          Call.structural = [] ∧
        (xrandr_output_change m srv ev st).rp_screens = refill srv st.rp_screens ∧
        (xrandr_output_change m srv ev st).rp_screens.map (fun s => s.xrandr.output) =
          st.rp_screens.map (fun s => s.xrandr.output)) := by
  have hcalls := output_change_calls m srv ev st
  refine ⟨?_, ?_, ?_⟩
  · intro hun ha
    have ht : xrandr_screen_output st.rp_screens ev.output = none := by
      rw [xrandr_screen_output, list_first_eq_none]
      intro s hs
      simpa using hun s hs
    have hperm : (xrandr_output_change m srv ev st).rp_screens.Perm
        (refill srv (xrandr_fill_screen srv ev.output m.fresh :: st.rp_screens)) := by
      rw [output_change_add m srv ev st ht ha]
      exact ((hm.2 _).trans (hm.1 _ _)).map _
    refine ⟨?_, hperm, ?_⟩
    · rw [hcalls, ht]
      simp [ha]
    · rw [hperm.length_eq]
      simp [refill]
  · intro htr ha
    have hsome : (xrandr_screen_output st.rp_screens ev.output).isSome = true := by
      rw [xrandr_screen_output, list_first_isSome]
      obtain ⟨s, hs, hso⟩ := htr
      exact ⟨s, hs, by simpa using hso⟩
    obtain ⟨i, hi⟩ := Option.isSome_iff_exists.mp hsome
    obtain ⟨s, hs, hps, -⟩ := list_first_eq_some _ _ _ hi
    refine ⟨i, s, hi, hs, by simpa using hps, ?_, output_change_del m srv ev st i hi ha⟩
    rw [hcalls, hi]
    simp [ha]
  · intro hiff
    have hkeep : (xrandr_screen_output st.rp_screens ev.output).isSome =
        has_crtc (srv.XRRGetOutputInfo ev.output) := by
      rw [Bool.eq_iff_iff, ← hiff, xrandr_screen_output, list_first_isSome]
      simp
    have hscr := output_change_keep m srv ev st hkeep
    refine ⟨?_, hscr, ?_⟩
    · rw [hcalls]
      cases ht : xrandr_screen_output st.rp_screens ev.output with
      | none =>
        rw [ht] at hkeep
        simp [← hkeep]
      | some i =>
        rw [ht] at hkeep
        simp [← hkeep]
    · rw [hscr, refill_outputs]

theorem head_manager_lawful : head_manager.Lawful :=
  ⟨fun _ _ => List.Perm.refl _, fun l => List.perm_insertionSort _ l⟩

/-- Witness for C1, one input for each case: output 2 becomes active while only "A" is
tracked (`screen_add` then `screen_sort`, two screens afterwards); output 2 is switched
off while "A" and "B" are tracked (`screen_del` of "B"); output 1 is reported again while
tracked and active (no structural call). -/
theorem xrandr_output_change_decision_witness :
    (((xrandr_output_change head_manager srv_two ⟨2⟩ (mk_state [screen_A])).calls.drop
          (mk_state [screen_A]).calls.length).filter Call.structural =
        [Call.screen_add 2, Call.screen_sort] ∧
      (xrandr_output_change head_manager srv_two ⟨2⟩ (mk_state [screen_A])).rp_screens.length
        = (mk_state [screen_A]).rp_screens.length + 1) ∧
    (∃ i s, xrandr_screen_output (mk_state [screen_A, screen_B]).rp_screens 2 = some i ∧
      (mk_state [screen_A, screen_B]).rp_screens[i]? = some s ∧ s.xrandr.output = 2 ∧
      ((xrandr_output_change head_manager srv_one ⟨2⟩
          (mk_state [screen_A, screen_B])).calls.drop
            (mk_state [screen_A, screen_B]).calls.length).filter Call.structural =
        [Call.screen_del i] ∧
      (xrandr_output_change head_manager srv_one ⟨2⟩
          (mk_state [screen_A, screen_B])).rp_screens =
        refill srv_one ((mk_state [screen_A, screen_B]).rp_screens.eraseIdx i)) ∧
    ((xrandr_output_change head_manager srv_two ⟨1⟩ (mk_state [screen_A])).calls.drop
        (mk_state [screen_A]).calls.length).filter Call.structural = [] := by
  refine ⟨?_, ?_, ?_⟩
  · have h := (xrandr_output_change_decision head_manager head_manager_lawful srv_two ⟨2⟩
      (mk_state [screen_A])).1 (by decide) (by decide)
    exact ⟨h.1, h.2.2⟩
  · exact (xrandr_output_change_decision head_manager head_manager_lawful srv_one ⟨2⟩
      (mk_state [screen_A, screen_B])).2.1 (by decide) (by decide)
  · exact ((xrandr_output_change_decision head_manager head_manager_lawful srv_two ⟨1⟩
      (mk_state [screen_A])).2.2 (by decide)).1

theorem fill_of_fetchable (srv : Server) (o : Nat) (s : rp_screen)
    (h : fetchable srv o = true) :
    ∃ outinfo crtinfo, srv.XRRGetOutputInfo o = some outinfo ∧ outinfo.crtc ≠ 0 ∧
      srv.XRRGetCrtcInfo outinfo.crtc = some crtinfo ∧
      xrandr_fill_screen srv o s =
        { xrandr :=
            { primary := if o = srv.XRRGetOutputPrimary then 1 else 0
              name := some outinfo.name
              output := o
              crtc := outinfo.crtc }
          left := crtinfo.x
          top := crtinfo.y
          width := crtinfo.width
          height := crtinfo.height } := by
  unfold fetchable at h
  cases ho : srv.XRRGetOutputInfo o with
  | none => simp [ho] at h
  | some outinfo =>
    simp only [ho, Bool.and_eq_true, bne_iff_ne, ne_eq] at h
    obtain ⟨hc, hi⟩ := h
    obtain ⟨crtinfo, hcr⟩ := Option.isSome_iff_exists.mp hi
    exact ⟨outinfo, crtinfo, rfl, hc, hcr, by simp [xrandr_fill_screen, ho, hc, hcr]⟩

theorem fill_of_not_fetchable (srv : Server) (o : Nat) (s : rp_screen)
    (h : fetchable srv o = false) : xrandr_fill_screen srv o s = s := by
  unfold fetchable at h
  unfold xrandr_fill_screen
  cases ho : srv.XRRGetOutputInfo o with
  | none => rfl
  | some outinfo =>
    by_cases hc : outinfo.crtc = 0
    · simp [hc]
    · cases hcr : srv.XRRGetCrtcInfo outinfo.crtc with
      | none => simp [hc, hcr]
      | some crtinfo => simp [ho, hc, hcr] at h

theorem fill_fetchable_output (srv : Server) (o : Nat) (s : rp_screen)
    (h : fetchable srv o = true) : (xrandr_fill_screen srv o s).xrandr.output = o := by
  obtain ⟨outinfo, crtinfo, -, -, -, he⟩ := fill_of_fetchable srv o s h
  rw [he]

theorem outputs_refill (srv : Server) (l : List rp_screen) :
    outputs (refill srv l) = outputs l := refill_outputs srv l

theorem mem_outputs (o : Nat) (l : List rp_screen) :
    o ∈ outputs l ↔ ∃ s ∈ l, s.xrandr.output = o := by
  simp [outputs]

theorem screen_output_eq_none (l : List rp_screen) (o : Nat) :
    xrandr_screen_output l o = none ↔ o ∉ outputs l := by
  rw [xrandr_screen_output, list_first_eq_none, mem_outputs]
  simp

theorem screen_output_eq_some (l : List rp_screen) (o i : Nat)
    (h : xrandr_screen_output l o = some i) :
    ∃ s, l[i]? = some s ∧ s.xrandr.output = o := by
  obtain ⟨s, hs, hps, -⟩ := list_first_eq_some _ _ _ h
  exact ⟨s, hs, by simpa using hps⟩

theorem not_mem_outputs_erase_first (l : List rp_screen) (o i : Nat)
    (hc : (outputs l).count o ≤ 1) (h : xrandr_screen_output l o = some i) :
    o ∉ outputs (l.eraseIdx i) := by
  induction l generalizing i with
  | nil => simp [xrandr_screen_output, list_first] at h
  | cons cur rest ih =>
    by_cases hp : cur.xrandr.output = o
    · have h0 : i = 0 := by
        simpa [xrandr_screen_output, list_first, hp] using h.symm
      subst h0
      simp only [outputs, List.map_cons, hp, List.count_cons_self] at hc
      have hz : (rest.map (fun s => s.xrandr.output)).count o = 0 := by omega
      simpa [outputs] using List.count_eq_zero.mp hz
    · have hne : (cur.xrandr.output == o) = false := by simpa using hp
      simp only [xrandr_screen_output, list_first, hne, Bool.false_eq_true, if_false,
        Option.map_eq_some'] at h
      obtain ⟨k, hk, rfl⟩ := h
      have hc' : (outputs rest).count o ≤ 1 := by
        simpa [outputs, List.count_cons, hp] using hc
      have := ih k hc' hk
      simp only [List.eraseIdx_cons_succ, outputs, List.map_cons, List.mem_cons, not_or]
      exact ⟨fun e => hp e.symm, this⟩

theorem mem_outputs_eraseIdx_of_ne (l : List rp_screen) (o o' i : Nat) (s : rp_screen)
    (hs : l[i]? = some s) (hso : s.xrandr.output = o) (hne : o' ≠ o) :
    o' ∈ outputs (l.eraseIdx i) ↔ o' ∈ outputs l := by
  rw [mem_outputs, mem_outputs]
  constructor
  · rintro ⟨t, ht, hto⟩
    exact ⟨t, List.mem_of_mem_eraseIdx ht, hto⟩
  · rintro ⟨t, ht, hto⟩
    refine ⟨t, ?_, hto⟩
    obtain ⟨j, hj⟩ := List.getElem?_of_mem ht
    rw [List.mem_eraseIdx_iff_getElem?]
    refine ⟨j, ?_, hj⟩
    rintro rfl
    rw [hs] at hj
    cases hj
    exact hne (hto.symm.trans hso)

theorem outputs_add (m : ScreenManager) (hm : m.Lawful) (srv : Server) (o : Nat)
    (l : List rp_screen) (hf : fetchable srv o = true) :
    (outputs (refill srv (m.sort (m.link (xrandr_fill_screen srv o m.fresh) l)))).Perm
      (o :: outputs l) := by
  rw [outputs_refill]
  have hp : (m.sort (m.link (xrandr_fill_screen srv o m.fresh) l)).Perm
      (xrandr_fill_screen srv o m.fresh :: l) := (hm.2 _).trans (hm.1 _ _)
  have := hp.map (fun s => s.xrandr.output)
  simpa [outputs, fill_fetchable_output srv o m.fresh hf] using this

theorem output_change_in_sync (m : ScreenManager) (hm : m.Lawful) (srv : Server)
    (ev : XRROutputChangeNotifyEvent) (st : State)
    (hnd : (outputs st.rp_screens).Nodup)
    (hsync : ∀ o, o ≠ ev.output →
      (o ∈ outputs st.rp_screens ↔ has_crtc (srv.XRRGetOutputInfo o) = true))
    (hok : has_crtc (srv.XRRGetOutputInfo ev.output) = true →
      fetchable srv ev.output = true) :
    in_sync srv (xrandr_output_change m srv ev st).rp_screens := by
  cases ht : xrandr_screen_output st.rp_screens ev.output with
  | none =>
    have hnot : ev.output ∉ outputs st.rp_screens := (screen_output_eq_none _ _).mp ht
    cases ha : has_crtc (srv.XRRGetOutputInfo ev.output) with
    | true =>
      have hperm := outputs_add m hm srv ev.output st.rp_screens (hok ha)
      rw [in_sync, output_change_add m srv ev st ht ha]
      refine ⟨hperm.nodup_iff.mpr (List.nodup_cons.mpr ⟨hnot, hnd⟩), ?_⟩
      intro o
      rw [hperm.mem_iff, List.mem_cons]
      by_cases ho : o = ev.output
      · subst ho
        simp [ha]
      · rw [← hsync o ho]
        simp [ho]
    | false =>
      have hkeep := output_change_keep m srv ev st (by rw [ht, ha]; rfl)
      rw [in_sync, hkeep, outputs_refill]
      refine ⟨hnd, ?_⟩
      intro o
      by_cases ho : o = ev.output
      · subst ho
        simp [ha, hnot]
      · exact hsync o ho
  | some i =>
    obtain ⟨s, hs, hso⟩ := screen_output_eq_some _ _ _ ht
    have hmem : ev.output ∈ outputs st.rp_screens :=
      (mem_outputs _ _).mpr ⟨s, List.mem_iff_getElem?.mpr ⟨i, hs⟩, hso⟩
    cases ha : has_crtc (srv.XRRGetOutputInfo ev.output) with
    | true =>
      have hkeep := output_change_keep m srv ev st (by rw [ht, ha]; rfl)
      rw [in_sync, hkeep, outputs_refill]
      refine ⟨hnd, ?_⟩
      intro o
      by_cases ho : o = ev.output
      · subst ho
        simp [ha, hmem]
      · exact hsync o ho
    | false =>
      rw [in_sync, output_change_del m srv ev st i ht ha, outputs_refill]
      refine ⟨?_, ?_⟩
      · exact ((List.eraseIdx_sublist st.rp_screens i).map _).nodup hnd
      · intro o
        by_cases ho : o = ev.output
        · subst ho
          have := not_mem_outputs_erase_first st.rp_screens ev.output i
            (List.nodup_iff_count_le_one.mp hnd _) ht
          simp [ha, this]
        · rw [mem_outputs_eraseIdx_of_ne st.rp_screens ev.output o i s hs hso ho]
          exact hsync o ho

/-- C2, as amended: in a run of output-change events in which every event reports the one
change made since the previous snapshot (`one_change_per_event`), starting from a tracked
list that mirrors the server, after each event the tracked output ids are exactly the
outputs with a bound controller in the snapshot current at that event, and no output id
occurs twice. -/
theorem output_change_run_in_sync (m : ScreenManager) (hm : m.Lawful) (srv0 : Server)
    (st : State) (steps : List (Server × XRROutputChangeNotifyEvent))
    (h0 : in_sync srv0 st.rp_screens) (hsteps : one_change_per_event srv0 steps) :
    ∀ p ∈ deliver m steps st, in_sync p.1 p.2.rp_screens := by
  induction steps generalizing srv0 st with
  | nil => simp [deliver]
  | cons step rest ih =>
    obtain ⟨srv, ev⟩ := step
    obtain ⟨hsame, hok, hrest⟩ := hsteps
    have hstep : in_sync srv (xrandr_output_change m srv ev st).rp_screens := by
      refine output_change_in_sync m hm srv ev st h0.1 ?_ hok
      intro o ho
      rw [h0.2 o, hsame o ho]
    intro p hp
    simp only [deliver, List.mem_cons] at hp
    rcases hp with rfl | hp
    · exact hstep
    · exact ih srv _ hstep hrest p hp

/-- Counterexample to C2 as stated: "A" and "B" are tracked and mirror the server; both
outputs are then switched off and the event for output 1 is delivered. After that event
output 2 is still tracked although the server reports no controller for it. -/
theorem output_change_run_out_of_sync :
    in_sync srv_two [screen_A, screen_B] ∧
    2 ∈ outputs (xrandr_output_change head_manager srv_off ⟨1⟩
      (mk_state [screen_A, screen_B])).rp_screens ∧
    has_crtc (srv_off.XRRGetOutputInfo 2) = false ∧
    ¬ in_sync srv_off (xrandr_output_change head_manager srv_off ⟨1⟩
      (mk_state [screen_A, screen_B])).rp_screens := by
  have h2 : 2 ∈ outputs (xrandr_output_change head_manager srv_off ⟨1⟩
      (mk_state [screen_A, screen_B])).rp_screens := by decide
  have hc : has_crtc (srv_off.XRRGetOutputInfo 2) = false := by decide
  refine ⟨⟨by decide, ?_⟩, h2, hc, ?_⟩
  · intro o
    by_cases h1 : o = 1
    · subst h1; decide
    · by_cases h2 : o = 2
      · subst h2; decide
      · simp [outputs, screen_A, screen_B, mk_screen, srv_two, has_crtc, h1, h2]
  · intro h
    have := (h.2 2).mp h2
    rw [hc] at this
    exact Bool.false_ne_true this

/-- Witness for C2 as amended: from "A" tracked under `srv_one`, output 2 gets its
controller (`srv_two`) and its event is delivered; the list then mirrors `srv_two`. -/
theorem output_change_run_in_sync_witness :
    in_sync srv_one (mk_state [screen_A]).rp_screens ∧
    one_change_per_event srv_one [(srv_two, ⟨2⟩)] ∧
    in_sync srv_two
      (xrandr_output_change head_manager srv_two ⟨2⟩ (mk_state [screen_A])).rp_screens := by
  have h0 : in_sync srv_one (mk_state [screen_A]).rp_screens := by
    refine ⟨by decide, ?_⟩
    intro o
    by_cases h1 : o = 1
    · subst h1; decide
    · by_cases h2 : o = 2
      · subst h2; decide
      · simp [outputs, mk_state, screen_A, mk_screen, srv_one, has_crtc, h1, h2]
  have hsteps : one_change_per_event srv_one [(srv_two, ⟨2⟩)] := by
    refine ⟨?_, fun _ => by decide, trivial⟩
    intro o ho
    by_cases h1 : o = 1
    · subst h1; decide
    · have h2 : ¬ o = 2 := ho
      simp [srv_one, srv_two, has_crtc, h1, h2]
  exact ⟨h0, hsteps,
    output_change_run_in_sync head_manager head_manager_lawful srv_one (mk_state [screen_A])
      [(srv_two, ⟨2⟩)] h0 hsteps (srv_two, _) (List.mem_singleton.mpr rfl)⟩

theorem fill_idem (srv : Server) (o : Nat) (s : rp_screen) :
    xrandr_fill_screen srv o (xrandr_fill_screen srv o s) = xrandr_fill_screen srv o s := by
  cases hf : fetchable srv o with
  | false => rw [fill_of_not_fetchable srv o s hf, fill_of_not_fetchable srv o s hf]
  | true =>
    obtain ⟨outinfo, crtinfo, ho, -, hcr, he⟩ := fill_of_fetchable srv o s hf
    obtain ⟨outinfo', crtinfo', ho', -, hcr', he'⟩ :=
      fill_of_fetchable srv o (xrandr_fill_screen srv o s) hf
    rw [ho] at ho'
    cases ho'
    rw [hcr] at hcr'
    cases hcr'
    rw [he', he]

theorem refill_idem (srv : Server) (l : List rp_screen) :
    refill srv (refill srv l) = refill srv l := by
  simp only [refill, List.map_map]
  apply List.map_congr_left
  intro s _
  simp only [Function.comp_apply, xrandr_fill_screen_output]
  exact fill_idem srv s.xrandr.output s

theorem output_change_is_refill (m : ScreenManager) (srv : Server)
    (ev : XRROutputChangeNotifyEvent) (st : State) :
    ∃ l, (xrandr_output_change m srv ev st).rp_screens = refill srv l := by
  cases ht : xrandr_screen_output st.rp_screens ev.output with
  | none =>
    cases ha : has_crtc (srv.XRRGetOutputInfo ev.output) with
    | true => exact ⟨_, output_change_add m srv ev st ht ha⟩
    | false => exact ⟨_, output_change_keep m srv ev st (by rw [ht, ha]; rfl)⟩
  | some i =>
    cases ha : has_crtc (srv.XRRGetOutputInfo ev.output) with
    | true => exact ⟨_, output_change_keep m srv ev st (by rw [ht, ha]; rfl)⟩
    | false => exact ⟨_, output_change_del m srv ev st i ht ha⟩

theorem output_change_tracked_iff (m : ScreenManager) (hm : m.Lawful) (srv : Server)
    (ev : XRROutputChangeNotifyEvent) (st : State)
    (hone : (outputs st.rp_screens).count ev.output ≤ 1)
    (hok : has_crtc (srv.XRRGetOutputInfo ev.output) = true →
      fetchable srv ev.output = true) :
    ev.output ∈ outputs (xrandr_output_change m srv ev st).rp_screens ↔
      has_crtc (srv.XRRGetOutputInfo ev.output) = true := by
  cases ht : xrandr_screen_output st.rp_screens ev.output with
  | none =>
    have hnot : ev.output ∉ outputs st.rp_screens := (screen_output_eq_none _ _).mp ht
    cases ha : has_crtc (srv.XRRGetOutputInfo ev.output) with
    | true =>
      rw [output_change_add m srv ev st ht ha,
        (outputs_add m hm srv ev.output st.rp_screens (hok ha)).mem_iff]
      simp
    | false =>
      rw [output_change_keep m srv ev st (by rw [ht, ha]; rfl), outputs_refill]
      simp [hnot]
  | some i =>
    obtain ⟨s, hs, hso⟩ := screen_output_eq_some _ _ _ ht
    have hmem : ev.output ∈ outputs st.rp_screens :=
      (mem_outputs _ _).mpr ⟨s, List.mem_iff_getElem?.mpr ⟨i, hs⟩, hso⟩
    cases ha : has_crtc (srv.XRRGetOutputInfo ev.output) with
    | true =>
      rw [output_change_keep m srv ev st (by rw [ht, ha]; rfl), outputs_refill]
      simp [hmem]
    | false =>
      rw [output_change_del m srv ev st i ht ha, outputs_refill]
      simp [not_mem_outputs_erase_first st.rp_screens ev.output i hone ht]

/-- C3, as amended: when at most one tracked screen has the event's output id and a
controller bound to the event's output answers the controller-info query, delivering the
same output-change event a second time against the same snapshot leaves the tracked list
as the first delivery left it: the same records in the same order, every field equal
(left, top, width and height included). -/
theorem xrandr_output_change_idempotent (m : ScreenManager) (hm : m.Lawful) (srv : Server)
    (ev : XRROutputChangeNotifyEvent) (st : State)
    (hone : (outputs st.rp_screens).count ev.output ≤ 1)
    (hok : has_crtc (srv.XRRGetOutputInfo ev.output) = true →
      fetchable srv ev.output = true) :
    (xrandr_output_change m srv ev (xrandr_output_change m srv ev st)).rp_screens =
      (xrandr_output_change m srv ev st).rp_screens := by
  have htr := output_change_tracked_iff m hm srv ev st hone hok
  have hkeep : (xrandr_screen_output (xrandr_output_change m srv ev st).rp_screens
      ev.output).isSome = has_crtc (srv.XRRGetOutputInfo ev.output) := by
    rw [Bool.eq_iff_iff, ← htr, ← Option.ne_none_iff_isSome, Ne, screen_output_eq_none]
    simp
  rw [output_change_keep m srv ev _ hkeep]
  obtain ⟨l, hl⟩ := output_change_is_refill m srv ev st
  rw [hl, refill_idem]

/-- Witness for C3 as amended: the event for output 2 under `srv_two` with "A" tracked. -/
theorem xrandr_output_change_idempotent_witness :
    (xrandr_output_change head_manager srv_two ⟨2⟩
        (xrandr_output_change head_manager srv_two ⟨2⟩ (mk_state [screen_A]))).rp_screens =
      (xrandr_output_change head_manager srv_two ⟨2⟩ (mk_state [screen_A])).rp_screens :=
  xrandr_output_change_idempotent head_manager head_manager_lawful srv_two ⟨2⟩
    (mk_state [screen_A]) (by decide) (by decide)

/-- Counterexample to C3 as stated. (1) Under `srv_broken` output 2 has a bound controller
whose info query fails: the first delivery adds a record that `xrandr_fill_screen` leaves
unpopulated, so output 2 is still untracked and the second delivery adds another record.
(2) With two tracked records for output 1 and the output switched off, the first delivery
removes one record and the second delivery removes the other. -/
theorem xrandr_output_change_not_idempotent :
    (xrandr_output_change head_manager srv_broken ⟨2⟩
        (xrandr_output_change head_manager srv_broken ⟨2⟩ (mk_state [screen_A]))).rp_screens ≠
      (xrandr_output_change head_manager srv_broken ⟨2⟩ (mk_state [screen_A])).rp_screens ∧
    (xrandr_output_change head_manager srv_off ⟨1⟩
        (xrandr_output_change head_manager srv_off ⟨1⟩
          (mk_state [screen_A, screen_A]))).rp_screens ≠
      (xrandr_output_change head_manager srv_off ⟨1⟩
        (mk_state [screen_A, screen_A])).rp_screens := by
  constructor <;> decide

/-! ## The primary flag -/

/-- C7, as amended: with `rp_have_xrandr` set, after `xrandr_fill_screen` has run for an
output whose controller is bound and answers the controller-info query,
`xrandr_is_primary` returns 1 for that screen when the output is the server's primary
output and 0 when it is not; consequently, after the loop of `xrandr_output_change` has
run `xrandr_fill_screen` for every tracked screen, each screen whose re-fetch went through
returns 1 exactly when its output is the primary output. -/
theorem xrandr_fill_screen_primary (srv : Server) (rp_have_xrandr : Int)
    (hflag : rp_have_xrandr ≠ 0) :
    (∀ o s, fetchable srv o = true →
      xrandr_is_primary rp_have_xrandr (xrandr_fill_screen srv o s) =
        if o = srv.XRRGetOutputPrimary then 1 else 0) ∧
    (∀ l, ∀ s ∈ refill srv l, fetchable srv s.xrandr.output = true →
      xrandr_is_primary rp_have_xrandr s =
        if s.xrandr.output = srv.XRRGetOutputPrimary then 1 else 0) := by
  have h1 : ∀ o s, fetchable srv o = true →
      xrandr_is_primary rp_have_xrandr (xrandr_fill_screen srv o s) =
        if o = srv.XRRGetOutputPrimary then 1 else 0 := by
    intro o s hf
    obtain ⟨outinfo, crtinfo, -, -, -, he⟩ := fill_of_fetchable srv o s hf
    rw [he]
    simp [xrandr_is_primary, hflag]
  refine ⟨h1, ?_⟩
  intro l s hs hf
  simp only [refill, List.mem_map] at hs
  obtain ⟨t, -, rfl⟩ := hs
  rw [xrandr_fill_screen_output] at hf ⊢
  exact h1 t.xrandr.output t hf

/-- Witness for C7 as amended: under `srv_primary_B` the re-fetched "B" is primary. -/
theorem xrandr_fill_screen_primary_witness :
    xrandr_is_primary 1 (xrandr_fill_screen srv_primary_B 2 screen_B) =
      if 2 = srv_primary_B.XRRGetOutputPrimary then 1 else 0 :=
  (xrandr_fill_screen_primary srv_primary_B 1 (by decide)).1 2 screen_B (by decide)

/-- Counterexample to C7 as stated. (1) "A" and "B" are tracked, "A" holds the primary
flag, and the primary designation has moved to output 2: after `xrandr_fill_screen` has
run for output 2 on "B" (position 1), `xrandr_is_primary` returns 1 for "B" and still
returns 1 for the other tracked screen "A". (2) With `rp_have_xrandr` unset,
`xrandr_is_primary` returns 0 for the screen of the primary output. (3) With the primary
output switched off, `xrandr_fill_screen` writes nothing and the flag of "B" stays 0. -/
theorem primary_flag_not_exclusive :
    (2 = srv_primary_B.XRRGetOutputPrimary ∧
      ([screen_A, screen_B].modify (xrandr_fill_screen srv_primary_B 2) 1).map
        (xrandr_is_primary 1) = [1, 1]) ∧
    (1 = srv_two.XRRGetOutputPrimary ∧
      xrandr_is_primary 0 (xrandr_fill_screen srv_two 1 screen_A) = 0) ∧
    (2 = ({ srv_off with XRRGetOutputPrimary := 2 } : Server).XRRGetOutputPrimary ∧
      xrandr_is_primary 1
        (xrandr_fill_screen { srv_off with XRRGetOutputPrimary := 2 } 2 screen_B) = 0) := by
  refine ⟨⟨rfl, ?_⟩, ⟨rfl, ?_⟩, ⟨rfl, ?_⟩⟩ <;> decide

/-! ## The re-fetch after an output change -/

theorem output_change_pre_refill (m : ScreenManager) (hm : m.Lawful) (srv : Server)
    (ev : XRROutputChangeNotifyEvent) (st : State) :
    ∃ l, (xrandr_output_change m srv ev st).rp_screens = refill srv l ∧
      ∀ t ∈ l, t ∈ st.rp_screens ∨ t = xrandr_fill_screen srv ev.output m.fresh := by
  cases ht : xrandr_screen_output st.rp_screens ev.output with
  | none =>
    cases ha : has_crtc (srv.XRRGetOutputInfo ev.output) with
    | true =>
      refine ⟨_, output_change_add m srv ev st ht ha, ?_⟩
      intro t htm
      have := (((hm.2 _).trans (hm.1 _ _)).mem_iff).mp htm
      rcases List.mem_cons.mp this with h | h
      · exact Or.inr h
      · exact Or.inl h
    | false =>
      exact ⟨_, output_change_keep m srv ev st (by rw [ht, ha]; rfl), fun t h => Or.inl h⟩
  | some i =>
    cases ha : has_crtc (srv.XRRGetOutputInfo ev.output) with
    | true =>
      exact ⟨_, output_change_keep m srv ev st (by rw [ht, ha]; rfl), fun t h => Or.inl h⟩
    | false =>
      exact ⟨_, output_change_del m srv ev st i ht ha,
        fun t h => Or.inl (List.mem_of_mem_eraseIdx h)⟩

/-- C8, as amended: when `xrandr_output_change` returns, every screen in the tracked list
(the newly added one included) whose output the server reports with a bound controller
that answers the controller-info query stores the controller id and the left, top, width
and height the server reports; a tracked screen whose output has no bound controller (or
whose queries fail) is a record of the list before the event, as it was, or the manager's
fresh record. -/
theorem xrandr_output_change_refetch (m : ScreenManager) (hm : m.Lawful) (srv : Server)
    (ev : XRROutputChangeNotifyEvent) (st : State) (s : rp_screen)
    (hs : s ∈ (xrandr_output_change m srv ev st).rp_screens) :
    (fetchable srv s.xrandr.output = true →
      ∃ outinfo crtinfo, srv.XRRGetOutputInfo s.xrandr.output = some outinfo ∧
        outinfo.crtc ≠ 0 ∧ srv.XRRGetCrtcInfo outinfo.crtc = some crtinfo ∧
        s.xrandr.crtc = outinfo.crtc ∧ s.left = crtinfo.x ∧ s.top = crtinfo.y ∧
        s.width = crtinfo.width ∧ s.height = crtinfo.height) ∧
    (fetchable srv s.xrandr.output = false → s ∈ st.rp_screens ∨ s = m.fresh) := by
  obtain ⟨l, hl, hfrom⟩ := output_change_pre_refill m hm srv ev st
  rw [hl] at hs
  simp only [refill, List.mem_map] at hs
  obtain ⟨t, ht, rfl⟩ := hs
  rw [xrandr_fill_screen_output]
  constructor
  · intro hf
    obtain ⟨outinfo, crtinfo, ho, hc, hcr, he⟩ :=
      fill_of_fetchable srv t.xrandr.output t hf
    exact ⟨outinfo, crtinfo, ho, hc, hcr, by rw [he], by rw [he], by rw [he], by rw [he],
      by rw [he]⟩
  · intro hf
    rw [fill_of_not_fetchable srv t.xrandr.output t hf]
    rcases hfrom t ht with h | h
    · exact Or.inl h
    · right
      cases hfo : fetchable srv ev.output with
      | false => rw [h, fill_of_not_fetchable srv ev.output m.fresh hfo]
      | true =>
        have : t.xrandr.output = ev.output := by
          rw [h, fill_fetchable_output srv ev.output m.fresh hfo]
        rw [this, hfo] at hf
        cases hf

/-- Witness for C8 as amended, the scenario of spec §8: "A" is tracked, output 2 gets
controller 12 with geometry (0,0,1024,768); the new screen for output 2 stores what the
server reports. -/
theorem xrandr_output_change_refetch_witness :
    mk_screen 2 12 0 "B" 0 0 1024 768 ∈
      (xrandr_output_change head_manager srv_two ⟨2⟩ (mk_state [screen_A])).rp_screens ∧
    ∃ outinfo crtinfo,
      srv_two.XRRGetOutputInfo (mk_screen 2 12 0 "B" 0 0 1024 768).xrandr.output =
        some outinfo ∧
      outinfo.crtc ≠ 0 ∧ srv_two.XRRGetCrtcInfo outinfo.crtc = some crtinfo ∧
      (mk_screen 2 12 0 "B" 0 0 1024 768).xrandr.crtc = outinfo.crtc ∧
      (mk_screen 2 12 0 "B" 0 0 1024 768).left = crtinfo.x ∧
      (mk_screen 2 12 0 "B" 0 0 1024 768).top = crtinfo.y ∧
      (mk_screen 2 12 0 "B" 0 0 1024 768).width = crtinfo.width ∧
      (mk_screen 2 12 0 "B" 0 0 1024 768).height = crtinfo.height :=
  ⟨by decide,
    (xrandr_output_change_refetch head_manager head_manager_lawful srv_two ⟨2⟩
      (mk_state [screen_A]) (mk_screen 2 12 0 "B" 0 0 1024 768) (by decide)).1 (by decide)⟩

/-- Counterexample to C8 as stated: "A" and "B" are tracked, both outputs are switched off
and the event for output 1 is delivered. "B" stays in the list with controller id 12
although the server reports controller 0 (none) for its output. -/
theorem xrandr_output_change_stale :
    screen_B ∈
      (xrandr_output_change head_manager srv_off ⟨1⟩
        (mk_state [screen_A, screen_B])).rp_screens ∧
    srv_off.XRRGetOutputInfo screen_B.xrandr.output = some { crtc := 0, name := "B" } ∧
    screen_B.xrandr.crtc = 12 := by
  refine ⟨by decide, by decide, by decide⟩

/-! ## Uniqueness of controller ids -/

theorem crtcs_screen_update (i : Nat) (left top width height : Int) (st : State) :
    crtcs (screen_update i left top width height st).rp_screens = crtcs st.rp_screens := by
  simp only [crtcs, screen_update]
  apply List.ext_getElem?
  intro j
  simp only [List.getElem?_map, List.getElem?_modify]
  cases st.rp_screens[j]? with
  | none => rfl
  | some a => by_cases h : i = j <;> simp [h]

theorem crtcs_crtc_change (ev : XRRCrtcChangeNotifyEvent) (st : State) :
    crtcs (xrandr_crtc_change ev st).rp_screens = crtcs st.rp_screens := by
  unfold xrandr_crtc_change
  split
  · rfl
  · split
    · rfl
    · split <;> exact crtcs_screen_update _ _ _ _ _ _

theorem crtcs_refill_nodup (srv : Server) (hd : distinct_crtcs srv) (l : List rp_screen)
    (hnd : (outputs l).Nodup) (hf : ∀ t ∈ l, fetchable srv t.xrandr.output = true) :
    (crtcs (refill srv l)).Nodup := by
  simp only [crtcs, refill, List.map_map]
  refine List.Nodup.map_on ?_ (List.Nodup.of_map _ hnd)
  intro x hx y hy hxy
  obtain ⟨ix, cx, hox, hcx, -, hex⟩ := fill_of_fetchable srv x.xrandr.output x (hf x hx)
  obtain ⟨iy, cy, hoy, -, -, hey⟩ := fill_of_fetchable srv y.xrandr.output y (hf y hy)
  simp only [Function.comp_apply, hex, hey] at hxy
  exact List.inj_on_of_nodup_map hnd hx hy (hd _ _ _ _ hox hoy hcx hxy)

theorem output_change_crtcs_nodup (m : ScreenManager) (hm : m.Lawful) (srv : Server)
    (ev : XRROutputChangeNotifyEvent) (st : State)
    (hnd : (outputs st.rp_screens).Nodup)
    (hothers : ∀ s ∈ st.rp_screens, s.xrandr.output ≠ ev.output →
      fetchable srv s.xrandr.output = true)
    (hok : has_crtc (srv.XRRGetOutputInfo ev.output) = true →
      fetchable srv ev.output = true)
    (hd : distinct_crtcs srv) :
    (crtcs (xrandr_output_change m srv ev st).rp_screens).Nodup := by
  cases ht : xrandr_screen_output st.rp_screens ev.output with
  | none =>
    have hnot : ev.output ∉ outputs st.rp_screens := (screen_output_eq_none _ _).mp ht
    have hne : ∀ s ∈ st.rp_screens, s.xrandr.output ≠ ev.output := fun s hs e =>
      hnot ((mem_outputs _ _).mpr ⟨s, hs, e⟩)
    cases ha : has_crtc (srv.XRRGetOutputInfo ev.output) with
    | true =>
      rw [output_change_add m srv ev st ht ha]
      have hp : (m.sort (m.link (xrandr_fill_screen srv ev.output m.fresh)
          st.rp_screens)).Perm (xrandr_fill_screen srv ev.output m.fresh :: st.rp_screens) :=
        (hm.2 _).trans (hm.1 _ _)
      have hout := fill_fetchable_output srv ev.output m.fresh (hok ha)
      refine crtcs_refill_nodup srv hd _ ?_ ?_
      · have := hp.map (fun s => s.xrandr.output)
        rw [outputs, this.nodup_iff]
        simp only [List.map_cons, hout]
        exact List.nodup_cons.mpr ⟨hnot, hnd⟩
      · intro t htm
        rcases List.mem_cons.mp (hp.mem_iff.mp htm) with h | h
        · rw [h, hout]
          exact hok ha
        · exact hothers t h (hne t h)
    | false =>
      rw [output_change_keep m srv ev st (by rw [ht, ha]; rfl)]
      exact crtcs_refill_nodup srv hd _ hnd (fun t h => hothers t h (hne t h))
  | some i =>
    cases ha : has_crtc (srv.XRRGetOutputInfo ev.output) with
    | true =>
      rw [output_change_keep m srv ev st (by rw [ht, ha]; rfl)]
      refine crtcs_refill_nodup srv hd _ hnd ?_
      intro t h
      by_cases e : t.xrandr.output = ev.output
      · rw [e]
        exact hok ha
      · exact hothers t h e
    | false =>
      rw [output_change_del m srv ev st i ht ha]
      have hgone := not_mem_outputs_erase_first st.rp_screens ev.output i
        (List.nodup_iff_count_le_one.mp hnd _) ht
      refine crtcs_refill_nodup srv hd _ ?_ ?_
      · exact ((List.eraseIdx_sublist st.rp_screens i).map _).nodup hnd
      · intro t h
        exact hothers t (List.mem_of_mem_eraseIdx h)
          (fun e => hgone ((mem_outputs _ _).mpr ⟨t, h, e⟩))

/-- C10, as amended: if no two tracked screens share a controller id before an event
dispatched through `xrandr_notify`, none do after it, provided that, when the event is an
output-change event, the tracked output ids are distinct, the server binds no controller to
two outputs, every tracked output other than the event's has a bound controller that
answers the controller-info query, and so does the event's output when it has a bound
controller. A controller-change event and an ignored event need no such condition. -/
theorem xrandr_notify_crtcs_nodup (m : ScreenManager) (hm : m.Lawful) (srv : Server)
    (ev : XEvent) (st : State)
    (hcrtc : (crtcs st.rp_screens).Nodup)
    (hchange : ev.type = st.xrandr_evbase + RRNotify → ev.subtype = RRNotify_OutputChange →
      (outputs st.rp_screens).Nodup ∧ distinct_crtcs srv ∧
      (∀ s ∈ st.rp_screens, s.xrandr.output ≠ ev.o_event.output →
        fetchable srv s.xrandr.output = true) ∧
      (has_crtc (srv.XRRGetOutputInfo ev.o_event.output) = true →
        fetchable srv ev.o_event.output = true)) :
    (crtcs (xrandr_notify m srv ev st).rp_screens).Nodup := by
  unfold xrandr_notify
  by_cases hty : ev.type = st.xrandr_evbase + RRNotify
  · by_cases hsub : ev.subtype = RRNotify_OutputChange
    · obtain ⟨hnd, hd, hothers, hok⟩ := hchange hty hsub
      simp only [hty, ne_eq, not_true_eq_false, if_false, hsub, if_true]
      exact output_change_crtcs_nodup m hm srv ev.o_event st hnd hothers hok hd
    · simp only [hty, ne_eq, not_true_eq_false, if_false, hsub]
      split
      · rw [crtcs_crtc_change]
        exact hcrtc
      · exact hcrtc
  · simp only [ne_eq, hty, not_false_eq_true, if_true]
    exact hcrtc

/-- Counterexample to C10 as stated: "A" (controller 11) and "B" (controller 12) are
tracked, the server then drives both outputs from controller 11, and the output-change
event for output 2 is dispatched: both tracked screens store controller id 11. -/
theorem xrandr_notify_crtcs_shared :
    (crtcs (mk_state [screen_A, screen_B]).rp_screens).Nodup ∧
    crtcs (xrandr_notify head_manager srv_clone (ev_output_change 2)
      (mk_state [screen_A, screen_B])).rp_screens = [11, 11] ∧
    ¬ (crtcs (xrandr_notify head_manager srv_clone (ev_output_change 2)
      (mk_state [screen_A, screen_B])).rp_screens).Nodup := by
  refine ⟨by decide, by decide, by decide⟩

theorem srv_two_distinct_crtcs : distinct_crtcs srv_two := by
  intro o₁ o₂ i₁ i₂ h₁ h₂ _ he
  simp only [srv_two] at h₁ h₂
  split_ifs at h₁ h₂ <;> first
    | omega
    | (simp only [Option.some.injEq] at h₁ h₂
       subst h₁ h₂
       simp at he)

/-- Witness for C10 as amended: "A" is tracked, output 2 gets controller 12 under
`srv_two`, and the output-change event for output 2 is dispatched. -/
theorem xrandr_notify_crtcs_nodup_witness :
    (crtcs (mk_state [screen_A]).rp_screens).Nodup ∧
    (crtcs (xrandr_notify head_manager srv_two (ev_output_change 2)
      (mk_state [screen_A])).rp_screens).Nodup := by
  have hcrtc : (crtcs (mk_state [screen_A]).rp_screens).Nodup := by decide
  refine ⟨hcrtc, xrandr_notify_crtcs_nodup head_manager head_manager_lawful srv_two
    (ev_output_change 2) (mk_state [screen_A]) hcrtc ?_⟩
  intro _ _
  refine ⟨by decide, srv_two_distinct_crtcs, ?_, fun _ => by decide⟩
  intro s hs _
  have : s = screen_A := by simpa [mk_state] using hs
  subst this
  decide

end Xrandr
